import Mathlib

/-!
Shallow embedding of `src/server.js` (the Express relay with routes
POST /api/whisper, POST /api/n8n, POST /api/tts) and proofs about the
route handlers.

JSON values are modelled by an inductive `Json`; JSON numbers are
restricted to integers (no claim involves fractional numbers).
`JSON.stringify` is modelled by `Json.serialize`, `r.json()` by
`Json.parse` (a fuel-driven recursive-descent parser; a parse failure
models the SyntaxError thrown by `r.json()`, which the handlers catch).
JavaScript truthiness of the values that the handlers test is modelled
by `jsFalsy` / `jsOrStr` / `jsOrOpt`.
-/

/-- JSON values (numbers restricted to integers). -/
inductive Json where
  | null : Json
  | bool (b : Bool) : Json
  | num (n : Int) : Json
  | str (s : String) : Json
  | arr (elems : List Json) : Json
  | obj (members : List (String × Json)) : Json
deriving Repr

/-- Hex digit character for serializer escapes. -/
def hexDigit (n : Nat) : Char :=
  if n < 10 then Char.ofNat (48 + n) else Char.ofNat (97 + n - 10)

/-- One character of a JSON string literal, escaped as JSON.stringify does. -/
def escChar (c : Char) : String :=
  if c = '"' then "\\\""
  else if c = '\\' then "\\\\"
  else if c = '\n' then "\\n"
  else if c = '\r' then "\\r"
  else if c = '\t' then "\\t"
  else if c = '\x08' then "\\b"
  else if c = '\x0c' then "\\f"
  else if c.toNat < 32 then
    "\\u00" ++ String.mk [hexDigit (c.toNat / 16), hexDigit (c.toNat % 16)]
  else String.mk [c]

/-- A JSON string literal, quoted and escaped. -/
def serializeStr (s : String) : String :=
  "\"" ++ String.join (s.data.map escChar) ++ "\""

mutual

/-- Model of `JSON.stringify`. -/
def Json.serialize : Json → String
  | Json.null => "null"
  | Json.bool b => cond b "true" "false"
  | Json.num n => toString n
  | Json.str s => serializeStr s
  | Json.arr es => "[" ++ serializeElems es ++ "]"
  | Json.obj ms => "\x7b" ++ serializeMems ms ++ "\x7d"

/-- Comma-separated serialization of array elements. -/
def serializeElems : List Json → String
  | [] => ""
  | [e] => Json.serialize e
  | e :: es => Json.serialize e ++ "," ++ serializeElems es

/-- Comma-separated serialization of object members. -/
def serializeMems : List (String × Json) → String
  | [] => ""
  | [(k, v)] => serializeStr k ++ ":" ++ Json.serialize v
  | (k, v) :: ms => serializeStr k ++ ":" ++ Json.serialize v ++ "," ++ serializeMems ms

end

/-- JSON whitespace skipping. -/
def skipWs : List Char → List Char
  | c :: cs => if c = ' ' ∨ c = '\t' ∨ c = '\n' ∨ c = '\r' then skipWs cs else c :: cs
  | [] => []

/-- Value of a hex digit character, if any. -/
def hexVal (c : Char) : Option Nat :=
  if '0' ≤ c ∧ c ≤ '9' then some (c.toNat - 48)
  else if 'a' ≤ c ∧ c ≤ 'f' then some (c.toNat - 97 + 10)
  else if 'A' ≤ c ∧ c ≤ 'F' then some (c.toNat - 65 + 10)
  else none

/-- Parse the remainder of a JSON string literal (after the opening quote),
returning the decoded characters and the rest of the input. -/
def parseStrRest : List Char → Option (List Char × List Char)
  | [] => none
  | '"' :: rest => some ([], rest)
  | '\\' :: e :: rest =>
    match e with
    | '"' => (parseStrRest rest).map (fun p => ('"' :: p.1, p.2))
    | '\\' => (parseStrRest rest).map (fun p => ('\\' :: p.1, p.2))
    | '/' => (parseStrRest rest).map (fun p => ('/' :: p.1, p.2))
    | 'n' => (parseStrRest rest).map (fun p => ('\n' :: p.1, p.2))
    | 't' => (parseStrRest rest).map (fun p => ('\t' :: p.1, p.2))
    | 'r' => (parseStrRest rest).map (fun p => ('\r' :: p.1, p.2))
    | 'b' => (parseStrRest rest).map (fun p => ('\x08' :: p.1, p.2))
    | 'f' => (parseStrRest rest).map (fun p => ('\x0c' :: p.1, p.2))
    | 'u' =>
      match rest with
      | a :: b :: c :: d :: rest2 =>
        match hexVal a, hexVal b, hexVal c, hexVal d with
        | some ha, some hb, some hc, some hd =>
          (parseStrRest rest2).map
            (fun p => (Char.ofNat (ha * 4096 + hb * 256 + hc * 16 + hd) :: p.1, p.2))
        | _, _, _, _ => none
      | _ => none
    | _ => none
  | c :: rest => (parseStrRest rest).map (fun p => (c :: p.1, p.2))

/-- Consume a run of decimal digits, accumulating their value. -/
def digitsVal (acc : Nat) : List Char → Nat × List Char
  | c :: cs =>
    if '0' ≤ c ∧ c ≤ '9' then digitsVal (acc * 10 + (c.toNat - 48)) cs
    else (acc, c :: cs)
  | [] => (acc, [])

/-- Parse a JSON integer numeral (the model restricts numbers to integers). -/
def parseNum : List Char → Option (Json × List Char)
  | cs =>
    match cs with
    | '-' :: c :: cs1 =>
      if '0' ≤ c ∧ c ≤ '9' then
        let p := digitsVal 0 (c :: cs1)
        some (Json.num (-(p.1 : Int)), p.2)
      else none
    | c :: cs1 =>
      if '0' ≤ c ∧ c ≤ '9' then
        let p := digitsVal 0 (c :: cs1)
        some (Json.num (p.1 : Int), p.2)
      else none
    | [] => none

mutual

/-- Fuel-driven JSON value parser: returns the value and remaining input. -/
def parseVal : Nat → List Char → Option (Json × List Char)
  | 0, _ => none
  | fuel + 1, cs =>
    match skipWs cs with
    | 'n' :: 'u' :: 'l' :: 'l' :: rest => some (Json.null, rest)
    | 't' :: 'r' :: 'u' :: 'e' :: rest => some (Json.bool true, rest)
    | 'f' :: 'a' :: 'l' :: 's' :: 'e' :: rest => some (Json.bool false, rest)
    | '"' :: rest => (parseStrRest rest).map (fun p => (Json.str (String.mk p.1), p.2))
    | '[' :: rest =>
      match skipWs rest with
      | ']' :: r2 => some (Json.arr [], r2)
      | cs2 => (parseElems fuel cs2).map (fun p => (Json.arr p.1, p.2))
    | '\x7b' :: rest =>
      match skipWs rest with
      | '\x7d' :: r2 => some (Json.obj [], r2)
      | cs2 => (parseMems fuel cs2).map (fun p => (Json.obj p.1, p.2))
    | cs1 => parseNum cs1

/-- Parse the elements of a non-empty JSON array, up to and including `]`. -/
def parseElems : Nat → List Char → Option (List Json × List Char)
  | 0, _ => none
  | fuel + 1, cs =>
    match parseVal fuel cs with
    | none => none
    | some (v, r) =>
      match skipWs r with
      | ',' :: r2 => (parseElems fuel r2).map (fun p => (v :: p.1, p.2))
      | ']' :: r2 => some ([v], r2)
      | _ => none

/-- Parse the members of a non-empty JSON object, up to and including the
closing brace. -/
def parseMems : Nat → List Char → Option (List (String × Json) × List Char)
  | 0, _ => none
  | fuel + 1, cs =>
    match skipWs cs with
    | '"' :: r =>
      match parseStrRest r with
      | none => none
      | some (k, r1) =>
        match skipWs r1 with
        | ':' :: r2 =>
          match parseVal fuel r2 with
          | none => none
          | some (v, r3) =>
            match skipWs r3 with
            | ',' :: r4 => (parseMems fuel r4).map (fun p => ((String.mk k, v) :: p.1, p.2))
            | '\x7d' :: r4 => some ([(String.mk k, v)], r4)
            | _ => none
        | _ => none
    | _ => none

end

/-- Model of `JSON.parse` / `r.json()`: `none` models the thrown SyntaxError. -/
def Json.parse (s : String) : Option Json :=
  match parseVal (2 * s.length + 2) s.data with
  | some (j, rest) => if skipWs rest = [] then some j else none
  | none => none

/-- JavaScript falsiness of a JSON value (`!v`). `0`, `""`, `false`, `null`
are falsy; objects and arrays are always truthy. -/
def jsFalsy : Json → Bool
  | Json.null => true
  | Json.bool b => !b
  | Json.num n => n == 0
  | Json.str s => s == ""
  | _ => false

/-- JavaScript `s || d` for strings: the empty string is falsy. -/
def jsOrStr (s d : String) : String := if s = "" then d else s

/-- JavaScript `x || d` where `x` may be `undefined`/`null` (`none`) or a
string (empty strings are falsy). -/
def jsOrOpt (o : Option String) (d : String) : String :=
  match o with
  | some s => jsOrStr s d
  | none => d

/-- Truthiness filter for an environment variable: an absent or empty value
fails an `if (!x)` check. -/
def envStr (o : Option String) : Option String :=
  match o with
  | some s => if s = "" then none else some s
  | none => none

/-- Does `pat` occur at the start of `l`? -/
def listStartsWith : List Char → List Char → Bool
  | [], _ => true
  | _ :: _, [] => false
  | a :: as, b :: bs => a == b && listStartsWith as bs

/-- Does `pat` occur anywhere in `hay`? -/
def listIncludes (pat : List Char) : List Char → Bool
  | [] => pat.isEmpty
  | h :: t => listStartsWith pat (h :: t) || listIncludes pat t

/-- Model of JavaScript `s.includes(pat)`. -/
def strIncludes (s pat : String) : Bool := listIncludes pat.data s.data

/-- Model of JavaScript `String.prototype.trim` (whitespace stripped from
both ends). -/
def jsTrim (s : String) : String :=
  let ws := fun c : Char => c = ' ' ∨ c = '\t' ∨ c = '\n' ∨ c = '\r' ∨ c = '\x0b' ∨ c = '\x0c'
  String.mk (((s.data.dropWhile ws).reverse.dropWhile ws).reverse)

/-- JavaScript property lookup on a parsed JSON object: with duplicate keys
the last occurrence wins (as in `JSON.parse`); lookup on a non-object yields
`undefined` (`none`). -/
def lookupLast : List (String × Json) → String → Option Json
  | [], _ => none
  | (k', v) :: ms, k =>
    match lookupLast ms k with
    | some r => some r
    | none => if k' = k then some v else none

/-- `j.k` property access (`undefined` is `none`). -/
def getProp (j : Json) (k : String) : Option Json :=
  match j with
  | Json.obj ms => lookupLast ms k
  | _ => none

mutual

/-- JavaScript string coercion of a JSON value (template literals and
property keys). -/
def jsToString : Json → String
  | Json.null => "null"
  | Json.bool b => cond b "true" "false"
  | Json.num n => toString n
  | Json.str s => s
  | Json.obj _ => "[object Object]"
  | Json.arr es => jsArrJoin es

/-- `Array.prototype.toString`: elements joined with commas, `null` as
the empty string. -/
def jsArrJoin : List Json → String
  | [] => ""
  | [Json.null] => ""
  | [e] => jsToString e
  | Json.null :: es => "," ++ jsArrJoin es
  | e :: es => jsToString e ++ "," ++ jsArrJoin es

end

/-- A thrown JavaScript error: its `.message` (possibly absent) and its
`String(err)` rendering. -/
structure JsError where
  message : Option String
  render : String
deriving Repr

/-- The SyntaxError thrown by `r.json()` on an unparseable body (its exact
message is runtime-dependent; no theorem depends on this text). -/
def jsonSyntaxErr : JsError :=
  ⟨some "Unexpected end of JSON input", "SyntaxError: Unexpected end of JSON input"⟩

/-- The TypeError thrown by `text.trim()` when `text` is truthy but not a
string. -/
def trimTypeErr : JsError :=
  ⟨some "text.trim is not a function", "TypeError: text.trim is not a function"⟩

/-- An upstream HTTP response as seen through `fetch`: status, the
`content-type` header (if any), and the body, viewed as text by
`r.text()`/`r.json()` and as octets by `r.arrayBuffer()`. -/
structure UpstreamResponse where
  status : Nat
  contentType : Option String
  bodyText : String
  bodyBytes : List Nat
deriving Repr

/-- `r.ok`: status in the inclusive range 200-299. -/
def UpstreamResponse.isOk (r : UpstreamResponse) : Bool :=
  decide (200 ≤ r.status) && decide (r.status ≤ 299)

/-- Outcome of an outbound `fetch`: an HTTP exchange that completed, or a
transport-level failure (the rejected promise's error). -/
inductive FetchOutcome where
  | ok (resp : UpstreamResponse)
  | fail (err : JsError)
deriving Repr

/-- One part of an outbound multipart form body. -/
inductive FormPart where
  | blob (field : String) (bytes : List Nat) (mime : String) (filename : String)
  | text (field : String) (value : String)
deriving Repr

/-- Body of an outbound request: a string (JSON text) or a multipart form. -/
inductive OutBody where
  | str (s : String)
  | form (parts : List FormPart)
deriving Repr

/-- An outbound request as handed to `fetch`. -/
structure OutboundRequest where
  url : String
  method : String
  headers : List (String × String)
  body : OutBody
deriving Repr

/-- Body of a response sent to the caller: a JSON value (`res.json`) or raw
octets (`res.end(buf)`). -/
inductive ResBody where
  | json (j : Json)
  | raw (bytes : List Nat)
deriving Repr

/-- A response sent to the caller: status, headers set via `res.setHeader`,
and body. -/
structure HttpResponse where
  status : Nat
  headers : List (String × String)
  body : ResBody
deriving Repr

/-- Result of running a route handler: the outbound call it made (if any)
and the response it sent. -/
structure RouteResult where
  call : Option OutboundRequest
  response : HttpResponse
deriving Repr

/-- The configuration the handlers read from the process environment. -/
structure Env where
  openaiApiKey : Option String
  n8nWebhookUrl : Option String
deriving Repr

/-- `⟨error: msg⟩` JSON body. -/
def errBody (msg : String) : ResBody :=
  ResBody.json (Json.obj [("error", Json.str msg)])

/-- The uploaded file of a transcription request (`req.file` from multer). -/
structure WhisperFile where
  buffer : List Nat
  mimetype : Option String
deriving Repr

def whisperUpstreamUrl : String := "https://api.openai.com/v1/audio/transcriptions"

def ttsUpstreamUrl : String := "https://api.openai.com/v1/audio/speech"

/-- Handler of POST /api/whisper. `outcome` is what the single outbound
`fetch` would produce; the result records whether that call was made. -/
def handleWhisper (env : Env) (file : Option WhisperFile) (outcome : FetchOutcome) :
    RouteResult :=
  match envStr env.openaiApiKey with
  | none => ⟨none, ⟨500, [], errBody "缺少 OPENAI_API_KEY"⟩⟩
  | some key =>
    match file with
    | none => ⟨none, ⟨400, [], errBody "缺少音訊檔 (field: file)"⟩⟩
    | some f =>
      if f.buffer.length == 0 then ⟨none, ⟨400, [], errBody "缺少音訊檔 (field: file)"⟩⟩
      else
        let mime := jsOrOpt f.mimetype "audio/webm"
        let call : OutboundRequest :=
          ⟨whisperUpstreamUrl, "POST",
            [("Authorization", "Bearer " ++ key)],
            OutBody.form [FormPart.blob "file" f.buffer mime "audio.webm",
                          FormPart.text "model" "whisper-1"]⟩
        match outcome with
        | FetchOutcome.fail e =>
          ⟨some call, ⟨502, [], errBody (jsOrOpt e.message "Whisper API error")⟩⟩
        | FetchOutcome.ok r =>
          if !r.isOk then
            ⟨some call, ⟨r.status, [], errBody (jsOrStr r.bodyText "Whisper API error")⟩⟩
          else
            match Json.parse r.bodyText with
            | some data => ⟨some call, ⟨200, [], ResBody.json data⟩⟩
            | none =>
              ⟨some call, ⟨502, [], errBody (jsOrOpt jsonSyntaxErr.message "Whisper API error")⟩⟩

/-- `req.body || ⟨⟩`: an absent or falsy parsed body is replaced by the
empty object. -/
def jsBodyOrEmpty (body : Option Json) : Json :=
  match body with
  | some j => if jsFalsy j then Json.obj [] else j
  | none => Json.obj []

/-- Handler of POST /api/n8n. `reqHeaders` are the inbound request headers
(the handler never reads them); `reqBody` is the JSON body parsed by
`express.json` (if any). -/
def handleN8n (env : Env) (reqHeaders : List (String × String)) (reqBody : Option Json)
    (outcome : FetchOutcome) : RouteResult :=
  match envStr env.n8nWebhookUrl with
  | none => ⟨none, ⟨500, [], errBody "缺少 N8N_WEBHOOK_URL"⟩⟩
  | some url =>
    let call : OutboundRequest :=
      ⟨url, "POST",
        [("Content-Type", "application/json"), ("User-Agent", "fourleaf-proxy/1.0")],
        OutBody.str (Json.serialize (jsBodyOrEmpty reqBody))⟩
    match outcome with
    | FetchOutcome.fail e =>
      ⟨some call,
        ⟨502, [],
          ResBody.json (Json.obj
            [("error", Json.str "Upstream fetch failed"),
             ("detail", Json.str (jsOrOpt e.message e.render))])⟩⟩
    | FetchOutcome.ok r =>
      let ct := r.contentType.getD ""
      if !r.isOk then
        ⟨some call,
          ⟨r.status, [],
            ResBody.json (Json.obj
              [("error", Json.str "n8n error"),
               ("status", Json.num (r.status : Int)),
               ("body", Json.str r.bodyText)])⟩⟩
      else if strIncludes ct "application/json" then
        match Json.parse r.bodyText with
        | some data => ⟨some call, ⟨200, [], ResBody.json data⟩⟩
        | none =>
          ⟨some call,
            ⟨502, [],
              ResBody.json (Json.obj
                [("error", Json.str "Upstream fetch failed"),
                 ("detail", Json.str (jsOrOpt jsonSyntaxErr.message jsonSyntaxErr.render))])⟩⟩
      else
        ⟨some call, ⟨200, [], ResBody.json (Json.obj [("text", Json.str r.bodyText)])⟩⟩

/-- The fixed format-to-MIME mapping of the TTS route (`contentTypes[k]`,
with the `|| 'audio/mpeg'` fallback; prototype-inherited keys are not
modelled). -/
def ttsContentType (k : String) : String :=
  if k = "mp3" then "audio/mpeg"
  else if k = "opus" then "audio/ogg; codecs=opus"
  else if k = "aac" then "audio/aac"
  else if k = "flac" then "audio/flac"
  else if k = "wav" then "audio/wav"
  else if k = "pcm" then "audio/l16"
  else "audio/mpeg"

/-- Handler of POST /api/tts. `reqBody` is the JSON body parsed by
`express.json` (if any). -/
def handleTts (env : Env) (reqBody : Option Json) (outcome : FetchOutcome) : RouteResult :=
  match envStr env.openaiApiKey with
  | none => ⟨none, ⟨500, [], errBody "缺少 OPENAI_API_KEY"⟩⟩
  | some key =>
    let b := jsBodyOrEmpty reqBody
    let textProp := getProp b "text"
    let voice := (getProp b "voice").getD (Json.str "alloy")
    let format := (getProp b "format").getD (Json.str "mp3")
    match textProp with
    | none => ⟨none, ⟨400, [], errBody "缺少 text 內容"⟩⟩
    | some t =>
      if jsFalsy t then ⟨none, ⟨400, [], errBody "缺少 text 內容"⟩⟩
      else
        match t with
        | Json.str s =>
          if jsTrim s = "" then ⟨none, ⟨400, [], errBody "缺少 text 內容"⟩⟩
          else
            let call : OutboundRequest :=
              ⟨ttsUpstreamUrl, "POST",
                [("Authorization", "Bearer " ++ key), ("Content-Type", "application/json")],
                OutBody.str (Json.serialize (Json.obj
                  [("model", Json.str "gpt-4o-mini-tts"),
                   ("input", Json.str s),
                   ("voice", voice),
                   ("format", format)]))⟩
            match outcome with
            | FetchOutcome.fail e =>
              ⟨some call, ⟨500, [], errBody (jsOrOpt e.message "TTS proxy error")⟩⟩
            | FetchOutcome.ok r =>
              if !r.isOk then
                ⟨some call, ⟨r.status, [], errBody (jsOrStr r.bodyText "TTS error")⟩⟩
              else
                ⟨some call,
                  ⟨200,
                    [("Content-Type", ttsContentType (jsToString format)),
                     ("Content-Disposition",
                       "inline; filename=\"speech." ++ jsToString format ++ "\"")],
                    ResBody.raw r.bodyBytes⟩⟩
        | _ =>
          -- truthy non-string text: `text.trim()` throws, landing in the catch
          ⟨none, ⟨500, [], errBody (jsOrOpt trimTypeErr.message "TTS proxy error")⟩⟩

/-- Does a caller-visible response body carry a JSON object with an
"error" member? -/
def resBodyHasErr : ResBody → Bool
  | ResBody.json (Json.obj ms) => ms.any (fun kv => kv.1 == "error")
  | _ => false

theorem whisper_err_field (env : Env) (file : Option WhisperFile) (o : FetchOutcome) :
    (handleWhisper env file o).response.status = 200 ∨
      resBodyHasErr (handleWhisper env file o).response.body = true := by
  simp only [handleWhisper]
  split
  · exact Or.inr rfl
  · split
    · exact Or.inr rfl
    · split
      · exact Or.inr rfl
      · split
        · exact Or.inr rfl
        · split
          · exact Or.inr rfl
          · split
            · exact Or.inl rfl
            · exact Or.inr rfl

theorem n8n_err_field (env : Env) (hdrs : List (String × String)) (b : Option Json)
    (o : FetchOutcome) :
    (handleN8n env hdrs b o).response.status = 200 ∨
      resBodyHasErr (handleN8n env hdrs b o).response.body = true := by
  simp only [handleN8n]
  split
  · exact Or.inr rfl
  · split
    · exact Or.inr rfl
    · split
      · exact Or.inr rfl
      · split
        · split
          · exact Or.inl rfl
          · exact Or.inr rfl
        · exact Or.inl rfl

theorem tts_err_field (env : Env) (b : Option Json) (o : FetchOutcome) :
    (handleTts env b o).response.status = 200 ∨
      resBodyHasErr (handleTts env b o).response.body = true := by
  simp only [handleTts]
  split
  · exact Or.inr rfl
  · split
    · exact Or.inr rfl
    · split
      · exact Or.inr rfl
      · split
        · split
          · exact Or.inr rfl
          · split
            · exact Or.inr rfl
            · split
              · exact Or.inr rfl
              · exact Or.inl rfl
        · exact Or.inr rfl

/-- C9 (confirmed): every error response produced by any branch of the three
route handlers (configuration, validation, upstream-error, transport-error,
including the caught `r.json()`/`text.trim()` throws) has a JSON object body
with an "error" member: every response whose status is not 200 carries one. -/
theorem error_bodies_have_error_field (env : Env) (file : Option WhisperFile)
    (hdrs : List (String × String)) (b1 b2 : Option Json) (o1 o2 o3 : FetchOutcome) :
    ((handleWhisper env file o1).response.status = 200 ∨
      resBodyHasErr (handleWhisper env file o1).response.body = true) ∧
    ((handleN8n env hdrs b1 o2).response.status = 200 ∨
      resBodyHasErr (handleN8n env hdrs b1 o2).response.body = true) ∧
    ((handleTts env b2 o3).response.status = 200 ∨
      resBodyHasErr (handleTts env b2 o3).response.body = true) :=
  ⟨whisper_err_field env file o1, n8n_err_field env hdrs b1 o2, tts_err_field env b2 o3⟩

/-- C6 (confirmed): on each route, absence of the relevant configuration
value (the OpenAI key for /api/whisper and /api/tts, the webhook URL for
/api/n8n; an empty value fails the same truthiness test) yields a 500
structured error and no outbound call. -/
theorem config_missing_500_no_call (env : Env) (file : Option WhisperFile)
    (hdrs : List (String × String)) (b1 b2 : Option Json) (o1 o2 o3 : FetchOutcome) :
    (envStr env.openaiApiKey = none →
      handleWhisper env file o1 = ⟨none, ⟨500, [], errBody "缺少 OPENAI_API_KEY"⟩⟩ ∧
      handleTts env b2 o3 = ⟨none, ⟨500, [], errBody "缺少 OPENAI_API_KEY"⟩⟩) ∧
    (envStr env.n8nWebhookUrl = none →
      handleN8n env hdrs b1 o2 = ⟨none, ⟨500, [], errBody "缺少 N8N_WEBHOOK_URL"⟩⟩) := by
  refine ⟨fun h => ⟨?_, ?_⟩, fun h => ?_⟩
  · unfold handleWhisper; rw [h]
  · unfold handleTts; rw [h]
  · unfold handleN8n; rw [h]

/-- Witness for `config_missing_500_no_call` at the empty environment. -/
theorem config_missing_500_no_call_witness :
    handleWhisper ⟨none, none⟩ none (FetchOutcome.ok ⟨200, none, "", []⟩) =
      ⟨none, ⟨500, [], errBody "缺少 OPENAI_API_KEY"⟩⟩ ∧
    handleTts ⟨none, none⟩ none (FetchOutcome.ok ⟨200, none, "", []⟩) =
      ⟨none, ⟨500, [], errBody "缺少 OPENAI_API_KEY"⟩⟩ ∧
    handleN8n ⟨none, none⟩ [] none (FetchOutcome.ok ⟨200, none, "", []⟩) =
      ⟨none, ⟨500, [], errBody "缺少 N8N_WEBHOOK_URL"⟩⟩ := by
  have h := config_missing_500_no_call ⟨none, none⟩ none [] none none
    (FetchOutcome.ok ⟨200, none, "", []⟩) (FetchOutcome.ok ⟨200, none, "", []⟩)
    (FetchOutcome.ok ⟨200, none, "", []⟩)
  exact ⟨(h.1 rfl).1, (h.1 rfl).2, h.2 rfl⟩

/-- C10 (confirmed): the webhook relay validates nothing: whenever the
webhook URL is configured it makes the outbound call whatever the body's
shape (for any fetch outcome the recorded call is the fixed request), and a
missing or empty inbound body is forwarded as the serialized empty object. -/
theorem n8n_no_validation_always_calls (env : Env) (u : String)
    (hdrs : List (String × String)) (b : Option Json) (o : FetchOutcome)
    (hurl : envStr env.n8nWebhookUrl = some u) :
    (handleN8n env hdrs b o).call =
      some ⟨u, "POST",
        [("Content-Type", "application/json"), ("User-Agent", "fourleaf-proxy/1.0")],
        OutBody.str (Json.serialize (jsBodyOrEmpty b))⟩ ∧
    Json.serialize (jsBodyOrEmpty none) = "\x7b\x7d" ∧
    Json.serialize (jsBodyOrEmpty (some (Json.obj []))) = "\x7b\x7d" := by
  refine ⟨?_, rfl, rfl⟩
  unfold handleN8n
  rw [hurl]
  rcases o with r | e
  · simp only []
    split
    · rfl
    · split
      · split
        · rfl
        · rfl
      · rfl
  · rfl

/-- Witness for `n8n_no_validation_always_calls`: a body of unexpected shape
(a bare string) is still forwarded. -/
theorem n8n_no_validation_always_calls_witness :
    (handleN8n ⟨none, some "https://n8n.example/hook"⟩ [] (some (Json.str "odd"))
        (FetchOutcome.ok ⟨200, none, "OK", []⟩)).call =
      some ⟨"https://n8n.example/hook", "POST",
        [("Content-Type", "application/json"), ("User-Agent", "fourleaf-proxy/1.0")],
        OutBody.str (Json.serialize (jsBodyOrEmpty (some (Json.str "odd"))))⟩ :=
  (n8n_no_validation_always_calls ⟨none, some "https://n8n.example/hook"⟩
    "https://n8n.example/hook" [] (some (Json.str "odd"))
    (FetchOutcome.ok ⟨200, none, "OK", []⟩) rfl).1

/-- C5 (confirmed): with the relevant configuration present (the code checks
configuration before validation), a request missing its required field — no
attachment (or an empty one) for /api/whisper, a missing or blank `text` for
/api/tts; /api/n8n has no required field — yields a 400 structured error and
no outbound call. -/
theorem missing_field_400_no_call (env : Env) (key : String)
    (file : Option WhisperFile) (b : Option Json) (o1 o2 : FetchOutcome)
    (hkey : envStr env.openaiApiKey = some key) :
    ((file = none ∨ ∃ f, file = some f ∧ f.buffer = []) →
      handleWhisper env file o1 = ⟨none, ⟨400, [], errBody "缺少音訊檔 (field: file)"⟩⟩) ∧
    ((getProp (jsBodyOrEmpty b) "text" = none ∨
      ∃ s, getProp (jsBodyOrEmpty b) "text" = some (Json.str s) ∧ jsTrim s = "") →
      handleTts env b o2 = ⟨none, ⟨400, [], errBody "缺少 text 內容"⟩⟩) := by
  constructor
  · rintro (rfl | ⟨f, rfl, hbuf⟩)
    · unfold handleWhisper; rw [hkey]
    · simp [handleWhisper, hkey, hbuf]
  · rintro (hnone | ⟨s, hsome, hblank⟩)
    · simp [handleTts, hkey, hnone]
    · by_cases hse : s = ""
      · simp [handleTts, hkey, hsome, hse, jsFalsy]
      · simp [handleTts, hkey, hsome, hblank, hse, jsFalsy]

/-- Witness for `missing_field_400_no_call`: no file for /api/whisper, a
blank text for /api/tts. -/
theorem missing_field_400_no_call_witness :
    handleWhisper ⟨some "k", none⟩ none (FetchOutcome.ok ⟨200, none, "", []⟩) =
      ⟨none, ⟨400, [], errBody "缺少音訊檔 (field: file)"⟩⟩ ∧
    handleTts ⟨some "k", none⟩ (some (Json.obj [("text", Json.str "")]))
        (FetchOutcome.ok ⟨200, none, "", []⟩) =
      ⟨none, ⟨400, [], errBody "缺少 text 內容"⟩⟩ := by
  have h := missing_field_400_no_call ⟨some "k", none⟩ "k" none
    (some (Json.obj [("text", Json.str "")]))
    (FetchOutcome.ok ⟨200, none, "", []⟩) (FetchOutcome.ok ⟨200, none, "", []⟩) rfl
  exact ⟨h.1 (Or.inl rfl), h.2 (Or.inr ⟨"", rfl, rfl⟩)⟩

/-- C7 (confirmed): with the key configured and a non-empty attachment, a
successful upstream 200 response whose body parses as JSON is passed through
unchanged with status 200. -/
theorem whisper_success_passthrough (env : Env) (key : String) (f : WhisperFile)
    (r : UpstreamResponse) (d : Json)
    (hkey : envStr env.openaiApiKey = some key)
    (hbuf : f.buffer ≠ [])
    (hst : r.status = 200)
    (hjson : Json.parse r.bodyText = some d) :
    (handleWhisper env (some f) (FetchOutcome.ok r)).response = ⟨200, [], ResBody.json d⟩ := by
  have hok : r.isOk = true := by
    simp [UpstreamResponse.isOk, hst]
  have hlen : (f.buffer.length == 0) = false := by
    cases hb : f.buffer with
    | nil => exact absurd hb hbuf
    | cons a t => rfl
  simp [handleWhisper, hkey, hlen, hok, hjson]

/-- Witness for `whisper_success_passthrough` at the spec's example
upstream body. -/
theorem whisper_success_passthrough_witness :
    (handleWhisper ⟨some "k", none⟩ (some ⟨[1], none⟩)
        (FetchOutcome.ok ⟨200, some "application/json", "\x7b\"text\":\"hello\"\x7d", []⟩)).response =
      ⟨200, [], ResBody.json (Json.obj [("text", Json.str "hello")])⟩ :=
  whisper_success_passthrough ⟨some "k", none⟩ "k" ⟨[1], none⟩
    ⟨200, some "application/json", "\x7b\"text\":\"hello\"\x7d", []⟩
    (Json.obj [("text", Json.str "hello")]) rfl (by simp) rfl rfl

/-- C8 (confirmed): when the outbound fetch itself fails with an error whose
message is non-empty, each route reports a gateway-failure status (502 for
/api/whisper and /api/n8n, 500 for /api/tts) whose JSON body carries that
message. -/
theorem transport_failure_gateway (env : Env) (key u : String) (f : WhisperFile)
    (hdrs : List (String × String)) (b1 b2 : Option Json) (m rend s : String)
    (hkey : envStr env.openaiApiKey = some key)
    (hurl : envStr env.n8nWebhookUrl = some u)
    (hbuf : f.buffer ≠ [])
    (hm : m ≠ "")
    (htext : getProp (jsBodyOrEmpty b2) "text" = some (Json.str s))
    (hs : jsTrim s ≠ "") :
    (handleWhisper env (some f) (FetchOutcome.fail ⟨some m, rend⟩)).response =
      ⟨502, [], errBody m⟩ ∧
    (handleN8n env hdrs b1 (FetchOutcome.fail ⟨some m, rend⟩)).response =
      ⟨502, [], ResBody.json (Json.obj
        [("error", Json.str "Upstream fetch failed"), ("detail", Json.str m)])⟩ ∧
    (handleTts env b2 (FetchOutcome.fail ⟨some m, rend⟩)).response =
      ⟨500, [], errBody m⟩ := by
  have hlen : (f.buffer.length == 0) = false := by
    cases hb : f.buffer with
    | nil => exact absurd hb hbuf
    | cons a t => rfl
  have hse : s ≠ "" := fun h => hs (by rw [h]; rfl)
  refine ⟨?_, ?_, ?_⟩
  · simp [handleWhisper, hkey, hlen, jsOrOpt, jsOrStr, hm]
  · simp [handleN8n, hurl, jsOrOpt, jsOrStr, hm]
  · simp [handleTts, hkey, htext, hse, hs, jsFalsy, jsOrOpt, jsOrStr, hm]

/-- Witness for `transport_failure_gateway` at a DNS-style failure. -/
theorem transport_failure_gateway_witness :
    (handleWhisper ⟨some "k", some "u"⟩ (some ⟨[1], none⟩)
        (FetchOutcome.fail ⟨some "getaddrinfo ENOTFOUND", "Error: getaddrinfo ENOTFOUND"⟩)).response =
      ⟨502, [], errBody "getaddrinfo ENOTFOUND"⟩ ∧
    (handleN8n ⟨some "k", some "u"⟩ [] none
        (FetchOutcome.fail ⟨some "getaddrinfo ENOTFOUND", "Error: getaddrinfo ENOTFOUND"⟩)).response =
      ⟨502, [], ResBody.json (Json.obj
        [("error", Json.str "Upstream fetch failed"),
         ("detail", Json.str "getaddrinfo ENOTFOUND")])⟩ ∧
    (handleTts ⟨some "k", some "u"⟩ (some (Json.obj [("text", Json.str "hi")]))
        (FetchOutcome.fail ⟨some "getaddrinfo ENOTFOUND", "Error: getaddrinfo ENOTFOUND"⟩)).response =
      ⟨500, [], errBody "getaddrinfo ENOTFOUND"⟩ :=
  transport_failure_gateway ⟨some "k", some "u"⟩ "k" "u" ⟨[1], none⟩ [] none
    (some (Json.obj [("text", Json.str "hi")])) "getaddrinfo ENOTFOUND"
    "Error: getaddrinfo ENOTFOUND" "hi" rfl rfl (by simp) (by simp) rfl (by simp [jsTrim])

/-- C1 counterexample: for body ⟨msg:"hi"⟩ with no client identifier
anywhere, the outbound call forwards exactly the inbound JSON — no clientId
"anon" is merged and no custom client header is attached; with inbound
header X-Client-Id: u123 and no body, the outbound call forwards the empty
object and carries no "u123" anywhere. -/
theorem n8n_client_id_cex :
    (handleN8n ⟨none, some "https://n8n.example/hook"⟩ []
        (some (Json.obj [("msg", Json.str "hi")]))
        (FetchOutcome.ok ⟨200, some "application/json", "\x7b\x7d", []⟩)).call =
      some ⟨"https://n8n.example/hook", "POST",
        [("Content-Type", "application/json"), ("User-Agent", "fourleaf-proxy/1.0")],
        OutBody.str "\x7b\"msg\":\"hi\"\x7d"⟩ ∧
    strIncludes "\x7b\"msg\":\"hi\"\x7d" "clientId" = false ∧
    strIncludes "\x7b\"msg\":\"hi\"\x7d" "anon" = false ∧
    (handleN8n ⟨none, some "https://n8n.example/hook"⟩ [("X-Client-Id", "u123")] none
        (FetchOutcome.ok ⟨200, some "application/json", "\x7b\x7d", []⟩)).call =
      some ⟨"https://n8n.example/hook", "POST",
        [("Content-Type", "application/json"), ("User-Agent", "fourleaf-proxy/1.0")],
        OutBody.str "\x7b\x7d"⟩ ∧
    strIncludes "\x7b\x7d" "u123" = false :=
  ⟨rfl, rfl, rfl, rfl, rfl⟩

/-- C1 (amended): the webhook relay resolves no client identifier: the
handler does not depend on the inbound headers at all, and the outbound call
is exactly the serialized inbound body (or the empty object) with only the
Content-Type and User-Agent headers. -/
theorem n8n_no_client_resolution (env : Env) (u : String)
    (hdrs hdrs2 : List (String × String)) (b : Option Json) (o : FetchOutcome)
    (hurl : envStr env.n8nWebhookUrl = some u) :
    handleN8n env hdrs b o = handleN8n env hdrs2 b o ∧
    (handleN8n env hdrs b o).call =
      some ⟨u, "POST",
        [("Content-Type", "application/json"), ("User-Agent", "fourleaf-proxy/1.0")],
        OutBody.str (Json.serialize (jsBodyOrEmpty b))⟩ := by
  refine ⟨rfl, ?_⟩
  unfold handleN8n
  rw [hurl]
  rcases o with r | e
  · simp only []
    split
    · rfl
    · split
      · split
        · rfl
        · rfl
      · rfl
  · rfl

/-- Witness for `n8n_no_client_resolution`: inbound headers carrying an
X-Client-Id do not change the outbound call. -/
theorem n8n_no_client_resolution_witness :
    handleN8n ⟨none, some "u"⟩ [("X-Client-Id", "u123")] (some (Json.obj [("msg", Json.str "hi")]))
        (FetchOutcome.ok ⟨200, none, "OK", []⟩) =
      handleN8n ⟨none, some "u"⟩ [] (some (Json.obj [("msg", Json.str "hi")]))
        (FetchOutcome.ok ⟨200, none, "OK", []⟩) ∧
    (handleN8n ⟨none, some "u"⟩ [("X-Client-Id", "u123")] (some (Json.obj [("msg", Json.str "hi")]))
        (FetchOutcome.ok ⟨200, none, "OK", []⟩)).call =
      some ⟨"u", "POST",
        [("Content-Type", "application/json"), ("User-Agent", "fourleaf-proxy/1.0")],
        OutBody.str (Json.serialize (jsBodyOrEmpty (some (Json.obj [("msg", Json.str "hi")]))))⟩ :=
  n8n_no_client_resolution ⟨none, some "u"⟩ "u" [("X-Client-Id", "u123")] []
    (some (Json.obj [("msg", Json.str "hi")])) (FetchOutcome.ok ⟨200, none, "OK", []⟩) rfl

/-- C2 counterexample: a successful upstream JSON response with status 201
is answered with status 200 (not the upstream status), and a successful
upstream JSON response with an empty body is answered 502 (the body is
parsed by `r.json()`, not read as text first, so an empty body does cause a
failure). -/
theorem n8n_json_passthrough_cex :
    (handleN8n ⟨none, some "u"⟩ [] none
        (FetchOutcome.ok ⟨201, some "application/json", "\x7b\"a\":1\x7d", []⟩)).response =
      ⟨200, [], ResBody.json (Json.obj [("a", Json.num 1)])⟩ ∧
    (handleN8n ⟨none, some "u"⟩ [] none
        (FetchOutcome.ok ⟨200, some "application/json", "", []⟩)).response.status = 502 :=
  ⟨rfl, rfl⟩

/-- C2 (amended): on a successful upstream response, when the content type
contains "application/json" the body is parsed as JSON and returned with
fixed status 200 (a body that fails to parse — e.g. an empty one — lands in
the catch branch and yields 502); otherwise the body text is wrapped as
⟨text: ...⟩ with status 200. -/
theorem n8n_success_response (env : Env) (u : String) (hdrs : List (String × String))
    (b : Option Json) (r : UpstreamResponse) (d : Json)
    (hurl : envStr env.n8nWebhookUrl = some u)
    (hok : r.isOk = true) :
    (strIncludes (r.contentType.getD "") "application/json" = true →
      (Json.parse r.bodyText = some d →
        (handleN8n env hdrs b (FetchOutcome.ok r)).response = ⟨200, [], ResBody.json d⟩) ∧
      (Json.parse r.bodyText = none →
        (handleN8n env hdrs b (FetchOutcome.ok r)).response =
          ⟨502, [], ResBody.json (Json.obj
            [("error", Json.str "Upstream fetch failed"),
             ("detail", Json.str (jsOrOpt jsonSyntaxErr.message jsonSyntaxErr.render))])⟩)) ∧
    (strIncludes (r.contentType.getD "") "application/json" = false →
      (handleN8n env hdrs b (FetchOutcome.ok r)).response =
        ⟨200, [], ResBody.json (Json.obj [("text", Json.str r.bodyText)])⟩) := by
  refine ⟨fun hct => ⟨fun hp => ?_, fun hp => ?_⟩, fun hct => ?_⟩
  · simp [handleN8n, hurl, hok, hct, hp]
  · simp [handleN8n, hurl, hok, hct, hp]
  · simp [handleN8n, hurl, hok, hct]

/-- Witness for `n8n_success_response`: the JSON branch on
⟨"text":"hello"⟩ and the non-JSON branch on the spec's "OK" example. -/
theorem n8n_success_response_witness :
    (handleN8n ⟨none, some "u"⟩ [] none
        (FetchOutcome.ok ⟨200, some "application/json", "\x7b\"text\":\"hello\"\x7d", []⟩)).response =
      ⟨200, [], ResBody.json (Json.obj [("text", Json.str "hello")])⟩ ∧
    (handleN8n ⟨none, some "u"⟩ [] none
        (FetchOutcome.ok ⟨200, some "text/html", "OK", []⟩)).response =
      ⟨200, [], ResBody.json (Json.obj [("text", Json.str "OK")])⟩ := by
  have h1 := n8n_success_response ⟨none, some "u"⟩ "u" [] none
    ⟨200, some "application/json", "\x7b\"text\":\"hello\"\x7d", []⟩
    (Json.obj [("text", Json.str "hello")]) rfl rfl
  have h2 := n8n_success_response ⟨none, some "u"⟩ "u" [] none
    ⟨200, some "text/html", "OK", []⟩ Json.null rfl rfl
  exact ⟨(h1.1 rfl).1 rfl, h2.2 rfl⟩

/-- C3 counterexample: an upstream 503 with body "boom" is relayed with
status 503, but the caller-visible body is a JSON error envelope, not the
upstream body verbatim: /api/n8n answers
⟨error:"n8n error", status:503, body:"boom"⟩ and /api/whisper answers
⟨error:"boom"⟩. -/
theorem upstream_error_verbatim_cex :
    (handleN8n ⟨none, some "u"⟩ [] none
        (FetchOutcome.ok ⟨503, none, "boom", []⟩)).response =
      ⟨503, [], ResBody.json (Json.obj
        [("error", Json.str "n8n error"), ("status", Json.num 503),
         ("body", Json.str "boom")])⟩ ∧
    Json.obj [("error", Json.str "n8n error"), ("status", Json.num 503),
      ("body", Json.str "boom")] ≠ Json.str "boom" ∧
    (handleWhisper ⟨some "k", none⟩ (some ⟨[1], none⟩)
        (FetchOutcome.ok ⟨503, none, "boom", []⟩)).response =
      ⟨503, [], errBody "boom"⟩ ∧
    Json.obj [("error", Json.str "boom")] ≠ Json.str "boom" :=
  ⟨rfl, fun h => Json.noConfusion h, rfl, fun h => Json.noConfusion h⟩

/-- C3 (amended): a non-success upstream status is relayed to the caller
with the same status code, and the upstream body is preserved inside a JSON
error envelope: /api/whisper and /api/tts answer ⟨error: body⟩ (with a
default message when the body is empty), /api/n8n answers
⟨error:"n8n error", status, body⟩. -/
theorem upstream_error_envelope (env : Env) (key u s : String) (f : WhisperFile)
    (hdrs : List (String × String)) (b1 b2 : Option Json) (r : UpstreamResponse)
    (hkey : envStr env.openaiApiKey = some key)
    (hurl : envStr env.n8nWebhookUrl = some u)
    (hbuf : f.buffer ≠ [])
    (htext : getProp (jsBodyOrEmpty b2) "text" = some (Json.str s))
    (hs : jsTrim s ≠ "")
    (hnok : r.isOk = false) :
    (handleWhisper env (some f) (FetchOutcome.ok r)).response =
      ⟨r.status, [], errBody (jsOrStr r.bodyText "Whisper API error")⟩ ∧
    (handleN8n env hdrs b1 (FetchOutcome.ok r)).response =
      ⟨r.status, [], ResBody.json (Json.obj
        [("error", Json.str "n8n error"), ("status", Json.num (r.status : Int)),
         ("body", Json.str r.bodyText)])⟩ ∧
    (handleTts env b2 (FetchOutcome.ok r)).response =
      ⟨r.status, [], errBody (jsOrStr r.bodyText "TTS error")⟩ := by
  have hlen : (f.buffer.length == 0) = false := by
    cases hb : f.buffer with
    | nil => exact absurd hb hbuf
    | cons a t => rfl
  have hse : s ≠ "" := fun h => hs (by rw [h]; rfl)
  refine ⟨?_, ?_, ?_⟩
  · simp [handleWhisper, hkey, hlen, hnok]
  · simp [handleN8n, hurl, hnok]
  · simp [handleTts, hkey, htext, hse, hs, jsFalsy, hnok]

/-- Witness for `upstream_error_envelope` at a simulated upstream 503. -/
theorem upstream_error_envelope_witness :
    (handleWhisper ⟨some "k", some "u"⟩ (some ⟨[1], none⟩)
        (FetchOutcome.ok ⟨503, none, "boom", []⟩)).response =
      ⟨503, [], errBody (jsOrStr "boom" "Whisper API error")⟩ ∧
    (handleN8n ⟨some "k", some "u"⟩ [] none
        (FetchOutcome.ok ⟨503, none, "boom", []⟩)).response =
      ⟨503, [], ResBody.json (Json.obj
        [("error", Json.str "n8n error"), ("status", Json.num 503),
         ("body", Json.str "boom")])⟩ ∧
    (handleTts ⟨some "k", some "u"⟩ (some (Json.obj [("text", Json.str "hi")]))
        (FetchOutcome.ok ⟨503, none, "boom", []⟩)).response =
      ⟨503, [], errBody (jsOrStr "boom" "TTS error")⟩ :=
  upstream_error_envelope ⟨some "k", some "u"⟩ "k" "u" "hi" ⟨[1], none⟩ [] none
    (some (Json.obj [("text", Json.str "hi")])) ⟨503, none, "boom", []⟩
    rfl rfl (by simp) rfl (by simp [jsTrim]) rfl

/-- C4 (confirmed): with the key configured and a valid non-blank text, a
successful upstream binary response is streamed back with status 200,
exactly the upstream bytes, a Content-Type from the fixed format-to-MIME
mapping ("wav" maps to audio/wav; unrecognized formats fall back to
audio/mpeg), and an inline Content-Disposition filename matching the
format. -/
theorem tts_success_binary (env : Env) (key s : String) (b : Option Json)
    (r : UpstreamResponse)
    (hkey : envStr env.openaiApiKey = some key)
    (htext : getProp (jsBodyOrEmpty b) "text" = some (Json.str s))
    (hs : jsTrim s ≠ "")
    (hok : r.isOk = true) :
    (handleTts env b (FetchOutcome.ok r)).response =
      ⟨200,
        [("Content-Type",
            ttsContentType (jsToString ((getProp (jsBodyOrEmpty b) "format").getD (Json.str "mp3")))),
         ("Content-Disposition",
            "inline; filename=\"speech." ++
              jsToString ((getProp (jsBodyOrEmpty b) "format").getD (Json.str "mp3")) ++ "\"")],
        ResBody.raw r.bodyBytes⟩ ∧
    ttsContentType "wav" = "audio/wav" ∧
    (∀ fmt : String, fmt ∉ (["mp3", "opus", "aac", "flac", "wav", "pcm"] : List String) →
      ttsContentType fmt = "audio/mpeg") := by
  have hse : s ≠ "" := fun h => hs (by rw [h]; rfl)
  refine ⟨?_, rfl, ?_⟩
  · simp [handleTts, hkey, htext, hse, hs, jsFalsy, hok]
  · intro fmt hf
    simp only [List.mem_cons, List.not_mem_nil, or_false, not_or] at hf
    obtain ⟨h1, h2, h3, h4, h5, h6⟩ := hf
    simp [ttsContentType, h1, h2, h3, h4, h5, h6]

/-- Witness for `tts_success_binary` at the spec's example
⟨"text":"hi","format":"wav"⟩ with a simulated upstream 200 binary body. -/
theorem tts_success_binary_witness :
    (handleTts ⟨some "k", none⟩
        (some (Json.obj [("text", Json.str "hi"), ("format", Json.str "wav")]))
        (FetchOutcome.ok ⟨200, none, "", [7, 8, 9]⟩)).response =
      ⟨200, [("Content-Type", "audio/wav"),
             ("Content-Disposition", "inline; filename=\"speech.wav\"")],
        ResBody.raw [7, 8, 9]⟩ :=
  (tts_success_binary ⟨some "k", none⟩ "k" "hi"
    (some (Json.obj [("text", Json.str "hi"), ("format", Json.str "wav")]))
    ⟨200, none, "", [7, 8, 9]⟩ rfl rfl (by simp [jsTrim]) rfl).1
